import Mathlib

/-!
Verification of the experiment bucket-resolution core of discord.py-self
(src/discord/experiment.py), shallowly embedded in Lean 4.

Machine integers are modelled as Nat (snowflakes, hashes, positions) and
Int (buckets, where -1 is the "no bucket" sentinel); Python exceptions are
modelled with Except.
-/

/-- Error kinds raised by the experiment core: ValueError for a missing or
mismatched experiment name, NotImplementedError for an unknown filter type,
and RecursionError for unbounded holdout recursion. -/
inductive ExpError where
  | nameRequired
  | nameMismatch
  | unsupportedFilter
  | recursionLimit
deriving Repr, DecidableEq

/-- Python truthiness of an optional string: None and the empty string are
falsy, every other string is truthy. -/
def pyStrTruthy : Option String → Bool
  | none => false
  | some s => !(s == "")

/-- Python truthiness of an optional integer: None and 0 are falsy. -/
def pyResultTruthy : Option Nat → Bool
  | none => false
  | some r => !(r == 0)

/-- Membership of an optional integer in a list, as Python evaluates
the expression x in ids when x may be None (None is never a member). -/
def optMem (x : Option Nat) (ids : List Nat) : Bool :=
  match x with
  | some v => ids.contains v
  | none => false

/-- The 32-bit modulus. -/
def M32 : Nat := 4294967296

/-- Rotate a 32-bit value left by r bits (0 < r < 32). -/
def rotl32 (x r : Nat) : Nat :=
  ((x <<< r) ||| (x >>> (32 - r))) % M32

/-- One MurmurHash3 body round: mix a 4-byte little-endian block into the
accumulator. -/
def mm3Mix (h k : Nat) : Nat :=
  let k1 := (k * 3432918353) % M32
  let k2 := rotl32 k1 15
  let k3 := (k2 * 461845907) % M32
  let h1 := h ^^^ k3
  let h2 := rotl32 h1 13
  (h2 * 5 + 3864292196) % M32

/-- Process all complete 4-byte blocks; returns the accumulator and the
remaining tail bytes (0 to 3 of them). -/
def mm3Body (h : Nat) : List Nat → Nat × List Nat
  | b0 :: b1 :: b2 :: b3 :: rest =>
      mm3Body (mm3Mix h (b0 + b1 * 256 + b2 * 65536 + b3 * 16777216)) rest
  | rest => (h, rest)

/-- Mix the 1-3 tail bytes (little-endian) into the accumulator. -/
def mm3Tail (h : Nat) (tailBytes : List Nat) : Nat :=
  match tailBytes with
  | [] => h
  | _ =>
    let k :=
      match tailBytes with
      | [b0] => b0
      | [b0, b1] => b0 + b1 * 256
      | [b0, b1, b2] => b0 + b1 * 256 + b2 * 65536
      | _ => 0
    let k1 := (k * 3432918353) % M32
    let k2 := rotl32 k1 15
    let k3 := (k2 * 461845907) % M32
    h ^^^ k3

/-- MurmurHash3 finalization (avalanche) step. -/
def fmix32 (h : Nat) : Nat :=
  let h1 := h ^^^ (h >>> 16)
  let h2 := (h1 * 2246822507) % M32
  let h3 := h2 ^^^ (h2 >>> 13)
  let h4 := (h3 * 3266489909) % M32
  h4 ^^^ (h4 >>> 16)

/-- MurmurHash3 x86 32-bit digest with seed 0 over a byte list. -/
def murmur3_32 (bytes : List Nat) : Nat :=
  let body := mm3Body 0 bytes
  let h1 := mm3Tail body.1 body.2
  fmix32 (h1 ^^^ (bytes.length % M32))

/-- UTF-8 encoding of one Unicode code point. -/
def utf8EncodeChar (c : Nat) : List Nat :=
  if c < 128 then [c]
  else if c < 2048 then [192 + c / 64, 128 + c % 64]
  else if c < 65536 then [224 + c / 4096, 128 + (c / 64) % 64, 128 + c % 64]
  else [240 + c / 262144, 128 + (c / 4096) % 64, 128 + (c / 64) % 64, 128 + c % 64]

/-- UTF-8 bytes of a string. -/
def utf8Bytes (s : String) : List Nat :=
  s.data.foldr (fun c acc => utf8EncodeChar c.toNat ++ acc) []

/-- Modelled from the spec: discord/utils.py (murmurhash32) is not under
src/; section 4.1 of the specification defines it as the standard 32-bit x86
MurmurHash3 with seed 0 over the UTF-8 bytes of the input, here in its
unsigned output mode (the only mode experiment.py uses), returning a value
in 0..2^32-1. -/
def murmurhash32 (s : String) : Nat :=
  murmur3_32 (utf8Bytes s)

/-- Entity evaluated by the experiment core: the guild attributes read by
GuildExperiment.bucket_for and the population filters (id, owner_id,
features, member_count, vanity_url_code). -/
structure Entity where
  id : Nat
  owner_id : Option Nat
  features : List String
  member_count : Option Nat
  vanity_url_code : Option String
deriving Repr, DecidableEq

/-- Filter clauses of ExperimentPopulation.bucket_for, as a closed tagged
union. The tag set mirrors ExperimentFilterType (discord/enums.py, not under
src/; the specification's FilterClause union gives the same closed set); the
unknown constructor stands for any type value try_enum leaves unrecognized,
which bucket_for's else branch rejects with NotImplementedError. -/
inductive FilterClause where
  | feature (features : List String)
  | id_range (start : Option Nat) (stop : Nat)
  | member_count_range (start : Option Nat) (stop : Nat)
  | ids (ids : List Nat)
  | hub_type
  | hash_range (hash_key : String) (target : Nat)
  | vanity_url (required : Bool)
  | unknown (ty : Nat)
deriving Repr, DecidableEq

/-- ExperimentRollout: a bucket and the inclusive position ranges that
grant it (ranges field, built from the s and e keys of the payload). -/
structure ExperimentRollout where
  bucket : Int
  ranges : List (Nat × Nat)
deriving Repr, DecidableEq

/-- ExperimentPopulation: ordered filters and rollouts. The back-reference
to the owning experiment is dropped; the position it would be used to
compute is passed to bucket_for explicitly, as GuildExperiment.bucket_for
always does. -/
structure ExperimentPopulation where
  filters : List FilterClause
  rollouts : List ExperimentRollout
deriving Repr, DecidableEq

/-- ExperimentOverride: an explicit bucket for a set of guild/user IDs. -/
structure ExperimentOverride where
  bucket : Int
  ids : List Nat
deriving Repr, DecidableEq

/-- HoldoutExperiment: the name and required bucket of the experiment the
dependent experiment depends on. The dependent back-reference is dropped;
the registry it reaches through is passed explicitly. -/
structure HoldoutExperiment where
  name : String
  bucket : Int
deriving Repr, DecidableEq

/-- GuildExperiment: hash identity, optional name, revision, populations,
overrides, formatted overrides, optional holdout and A/A mode flag. -/
structure GuildExperiment where
  hash : Nat
  name : Option String
  revision : Int
  populations : List ExperimentPopulation
  overrides : List ExperimentOverride
  overrides_formatted : List (List ExperimentPopulation)
  holdout : Option HoldoutExperiment
  aa_mode : Bool
deriving Repr, DecidableEq

/-- The ConnectionState's guild_experiments mapping from name hash to
experiment, modelled as an association list (first match wins). -/
abbrev Registry := List (Nat × GuildExperiment)

/-- Dictionary lookup in the registry. -/
def Registry.get : Registry → Nat → Option GuildExperiment
  | [], _ => none
  | (k, e) :: rest, key => if k = key then some e else Registry.get rest key

/-- Dictionary update in the registry (models the in-place mutation of the
experiment object stored under the key). -/
def Registry.set : Registry → Nat → GuildExperiment → Registry
  | [], key, e => [(key, e)]
  | (k, e0) :: rest, key, e =>
      if k = key then (k, e) :: rest else (k, e0) :: Registry.set rest key e

/-- Evaluation of one filter clause against a guild, translated from the
body of the filter loop in ExperimentPopulation.bucket_for (a continue
becomes ok true, a return -1 becomes ok false, and the else branch's
NotImplementedError becomes an unsupportedFilter error). -/
def evalFilter (guild : Entity) : FilterClause → Except ExpError Bool
  | .feature features =>
      if features.any (fun f => guild.features.contains f) then .ok true
      else .ok false
  | .id_range start stop =>
      if (match start with
          | some s => decide (s ≤ guild.id) && decide (guild.id ≤ stop)
          | none => false) then .ok true
      else if guild.id ≤ stop then .ok true
      else .ok false
  | .member_count_range start stop =>
      match guild.member_count with
      | none => .ok true
      | some mc =>
          if (match start with
              | some s => decide (s ≤ mc) && decide (mc ≤ stop)
              | none => false) then .ok true
          else if mc ≤ stop then .ok true
          else .ok false
  | .ids ids =>
      if ids.contains guild.id then .ok true else .ok false
  | .hub_type => .ok true
  | .hash_range hash_key target =>
      let result := murmurhash32 (hash_key ++ ":" ++ toString guild.id)
      let result := if result > 0 then result + result else result % M32
      if result % 10000 < target then .ok true else .ok false
  | .vanity_url required =>
      if required ≠ pyStrTruthy guild.vanity_url_code then .ok false
      else .ok true
  | .unknown _ => .error .unsupportedFilter

/-- The filter loop of ExperimentPopulation.bucket_for: ok true when every
filter passes, ok false as soon as one fails, error on an unknown filter. -/
def evalFilters (guild : Entity) : List FilterClause → Except ExpError Bool
  | [] => .ok true
  | f :: rest =>
      match evalFilter guild f with
      | .error err => .error err
      | .ok true => evalFilters guild rest
      | .ok false => .ok false

/-- Inclusive range membership test of the rollout loop
(start <= result <= end for some range of the rollout). -/
def rangesContain (res : Nat) : List (Nat × Nat) → Bool
  | [] => false
  | (s, e) :: rest => if s ≤ res ∧ res ≤ e then true else rangesContain res rest

/-- The rollout loop of ExperimentPopulation.bucket_for: the bucket of the
first rollout one of whose ranges contains the position, else -1. -/
def scanRollouts (res : Nat) : List ExperimentRollout → Int
  | [] => -1
  | r :: rest => if rangesContain res r.ranges then r.bucket else scanRollouts res rest

/-- ExperimentPopulation.bucket_for with the position given explicitly (as
GuildExperiment.bucket_for always passes it): -1 on any filter failure,
otherwise the first matching rollout bucket, -1 if none. -/
def ExperimentPopulation.bucket_for (pop : ExperimentPopulation) (guild : Entity)
    (res : Nat) : Except ExpError Int :=
  match evalFilters guild pop.filters with
  | .error err => .error err
  | .ok false => .ok (-1)
  | .ok true => .ok (scanRollouts res pop.rollouts)

/-- GuildExperiment.result_for: ValueError when the name is falsy, else the
unsigned 32-bit hash of the string name, a colon and the decimal guild id,
reduced modulo 10000. -/
def GuildExperiment.result_for (e : GuildExperiment) (gid : Nat) : Except ExpError Nat :=
  if pyStrTruthy e.name = false then .error .nameRequired
  else .ok (murmurhash32 (e.name.getD "" ++ ":" ++ toString gid) % 10000)

/-- The name property setter of GuildExperiment: a falsy value (None or the
empty string) resets the stored name to None; otherwise the value is
accepted exactly when its unsigned 32-bit hash equals the hash field. -/
def GuildExperiment.set_name (e : GuildExperiment) (value : Option String) :
    Except ExpError GuildExperiment :=
  if pyStrTruthy value = false then .ok { e with name := none }
  else if murmurhash32 (value.getD "") ≠ e.hash then .error .nameMismatch
  else .ok { e with name := value }

/-- The override loop of GuildExperiment.bucket_for: the bucket of the first
override whose ids contain the guild's id or the guild's owner_id. -/
def scanOverrides (guild : Entity) : List ExperimentOverride → Option Int
  | [] => none
  | o :: rest =>
      if o.ids.contains guild.id || optMem guild.owner_id o.ids then some o.bucket
      else scanOverrides guild rest

/-- The population loop of GuildExperiment.bucket_for: the first population
bucket different from -1, else -1; population errors propagate. -/
def scanPops (guild : Entity) (res : Nat) : List ExperimentPopulation → Except ExpError Int
  | [] => .ok (-1)
  | p :: rest =>
      match p.bucket_for guild res with
      | .error err => .error err
      | .ok b => if b ≠ -1 then .ok b else scanPops guild res rest

/-- The overrides_formatted double loop of GuildExperiment.bucket_for: the
outer list is scanned in order, each inner population list as in scanPops. -/
def scanFormatted (guild : Entity) (res : Nat) :
    List (List ExperimentPopulation) → Except ExpError Int
  | [] => .ok (-1)
  | ps :: rest =>
      match scanPops guild res ps with
      | .error err => .error err
      | .ok b => if b ≠ -1 then .ok b else scanFormatted guild res rest

/-- The tail of GuildExperiment.bucket_for after the A/A-mode and holdout
checks: compute the position, scan overrides, then overrides_formatted,
then populations, defaulting to -1. -/
def GuildExperiment.bucketForRest (e : GuildExperiment) (guild : Entity)
    (reg : Registry) : Except ExpError (Int × Registry) :=
  match e.result_for guild.id with
  | .error err => .error err
  | .ok hash_result =>
    match scanOverrides guild e.overrides with
    | some b => .ok (b, reg)
    | none =>
      match scanFormatted guild hash_result e.overrides_formatted with
      | .error err => .error err
      | .ok b =>
        if b ≠ -1 then .ok (b, reg)
        else
          match scanPops guild hash_result e.populations with
          | .error err => .error err
          | .ok b2 => .ok (b2, reg)

mutual

/-- GuildExperiment.bucket_for: -1 in A/A mode; -1 when a holdout is present
and not eligible; otherwise the bucketForRest scan. The registry models the
state's guild_experiments dictionary, which holdout resolution may update;
fuel bounds the holdout recursion depth (Python's recursion limit). -/
def GuildExperiment.bucket_for (e : GuildExperiment) (guild : Entity)
    (fuel : Nat) (reg : Registry) : Except ExpError (Int × Registry) :=
  match fuel with
  | 0 => .error .recursionLimit
  | fuel' + 1 =>
    if e.aa_mode then .ok (-1, reg)
    else
      match e.holdout with
      | some h =>
        match HoldoutExperiment.is_eligible h guild fuel' reg with
        | .error err => .error err
        | .ok (elig, reg') =>
          if elig then GuildExperiment.bucketForRest e guild reg'
          else .ok (-1, reg')
      | none => GuildExperiment.bucketForRest e guild reg
termination_by 2 * fuel
decreasing_by all_goals (simp_wf; omega)

/-- HoldoutExperiment.is_eligible (together with the experiment property it
reads): look up the dependency by the hash of the holdout name; if absent,
eligible; if present, backfill its name when falsy (the registry update),
then compare its bucket_for result with the required bucket. -/
def HoldoutExperiment.is_eligible (h : HoldoutExperiment) (guild : Entity)
    (fuel : Nat) (reg : Registry) : Except ExpError (Bool × Registry) :=
  match Registry.get reg (murmurhash32 h.name) with
  | none => .ok (true, reg)
  | some exp =>
    let exp' := if pyStrTruthy exp.name then exp else { exp with name := some h.name }
    let reg' :=
      if pyStrTruthy exp.name then reg
      else Registry.set reg (murmurhash32 h.name) exp'
    match GuildExperiment.bucket_for exp' guild fuel reg' with
    | .error err => .error err
    | .ok (b, reg'') => .ok (decide (b = h.bucket), reg'')
termination_by 2 * fuel + 1
decreasing_by all_goals simp_wf

end

/-- UserExperiment: hash identity, optional name (always None at
construction), revision, the assignment/override/population bucket fields
and the precomputed hash result (None models a null payload value, which
Python truthiness conflates with 0). -/
structure UserExperiment where
  hash : Nat
  name : Option String
  revision : Int
  assignment : Int
  override : Int
  population : Int
  result_ : Option Nat
  aa_mode : Bool
deriving Repr, DecidableEq

/-- The name property setter of UserExperiment, identical to the guild
one: falsy values reset the name, others must hash to the hash field. -/
def UserExperiment.set_name (u : UserExperiment) (value : Option String) :
    Except ExpError UserExperiment :=
  if pyStrTruthy value = false then .ok { u with name := none }
  else if murmurhash32 (value.getD "") ≠ u.hash then .error .nameMismatch
  else .ok { u with name := value }

/-- The bucket property of UserExperiment: -1 in A/A mode, else the
override field when it is not -1, else the population field. -/
def UserExperiment.bucket (u : UserExperiment) : Int :=
  if u.aa_mode then -1
  else if u.override ≠ -1 then u.override else u.population

/-- The result property of UserExperiment: the stored result when truthy,
else ValueError when the name is falsy, else the unsigned 32-bit hash of
the name, a colon and the decimal self id, reduced modulo 10000. -/
def UserExperiment.result (u : UserExperiment) (self_id : Nat) : Except ExpError Nat :=
  if pyResultTruthy u.result_ then .ok (u.result_.getD 0)
  else if pyStrTruthy u.name = false then .error .nameRequired
  else .ok (murmurhash32 (u.name.getD "" ++ ":" ++ toString self_id) % 10000)

/-- Python __eq__ of GuildExperiment: comparison of the hash fields. -/
def GuildExperiment.eqPy (a b : GuildExperiment) : Bool :=
  a.hash == b.hash

/-- Python __hash__ of GuildExperiment: the hash field itself. -/
def GuildExperiment.hashPy (a : GuildExperiment) : Nat :=
  a.hash

/-- Python __eq__ of UserExperiment: comparison of the hash fields. -/
def UserExperiment.eqPy (a b : UserExperiment) : Bool :=
  a.hash == b.hash

/-- Python __hash__ of UserExperiment: the hash field itself. -/
def UserExperiment.hashPy (a : UserExperiment) : Nat :=
  a.hash

/-- Claim-side restatement of GuildExperiment.bucket_for for C1, following
the claim's wording: -1 in A/A mode; -1 when a present holdout is not
eligible; else the position is computed; then the first override whose id
set contains the guild's id or the guild's owner id determines the result;
only then are overrides_formatted and then populations scanned for the
first non-sentinel bucket, with -1 as default. -/
def GuildExperiment.bucketForClaim (e : GuildExperiment) (guild : Entity)
    (fuel : Nat) (reg : Registry) : Except ExpError (Int × Registry) :=
  if e.aa_mode then .ok (-1, reg)
  else
    let holdoutRes : Except ExpError (Bool × Registry) :=
      match e.holdout with
      | some h => h.is_eligible guild fuel reg
      | none => .ok (true, reg)
    match holdoutRes with
    | .error err => .error err
    | .ok (false, reg') => .ok (-1, reg')
    | .ok (true, reg') =>
      match e.result_for guild.id with
      | .error err => .error err
      | .ok position =>
        match e.overrides.find? (fun o => o.ids.contains guild.id || optMem guild.owner_id o.ids) with
        | some o => .ok (o.bucket, reg')
        | none =>
          match scanPops guild position (e.overrides_formatted.flatten ++ e.populations) with
          | .error err => .error err
          | .ok b => .ok (b, reg')

/-- Claim-side restatement of the HashRange clause for C4: the unsigned
32-bit hash of key, colon and id; doubled without any modulus when
positive, otherwise reduced modulo 2^32; pass exactly when the result
modulo 10000 is below the target. -/
def hashRangeClaim (key : String) (id target : Nat) : Bool :=
  let h := murmurhash32 (key ++ ":" ++ toString id)
  let h2 := if h > 0 then h + h else h % 4294967296
  decide (h2 % 10000 < target)

/-- A generic guild entity for witnesses. -/
def entityW : Entity :=
  { id := 1, owner_id := none, features := [], member_count := none,
    vanity_url_code := none }

/-- A user assignment whose payload carries assignment 3, override -1 and
population 5 with A/A mode off (the C2 failing input). -/
def userExpC2 : UserExperiment :=
  { hash := 1, name := none, revision := 0, assignment := 3, override := -1,
    population := 5, result_ := some 100, aa_mode := false }

/-- A guild entity with id 5 (the C3 failing input). -/
def entityC3 : Entity :=
  { id := 5, owner_id := none, features := [], member_count := none,
    vanity_url_code := none }

/-- A population whose only filter is an IdRange with start 10 and end 100
and whose rollout grants bucket 3 on every position (the C3 failing input). -/
def popC3 : ExperimentPopulation :=
  { filters := [.id_range (some 10) 100],
    rollouts := [{ bucket := 3, ranges := [(0, 9999)] }] }

/-- A user assignment with a precomputed result of exactly 0 and no name
(the C6 counterexample input). -/
def userExpC6 : UserExperiment :=
  { hash := 0, name := none, revision := 0, assignment := 0, override := -1,
    population := 0, result_ := some 0, aa_mode := false }

/-- A user assignment with a nonzero precomputed result (the C6 amended
witness input). -/
def userExpC6W : UserExperiment :=
  { hash := 0, name := none, revision := 0, assignment := 0, override := -1,
    population := 0, result_ := some 5, aa_mode := false }

/-- A population whose only filter is of an unrecognized kind (the C7
witness input). -/
def popC7 : ExperimentPopulation :=
  { filters := [.unknown 99],
    rollouts := [{ bucket := 3, ranges := [(0, 9999)] }] }

/-- A guild experiment whose hash is the hash of the string test (the C8
witness input). -/
def guildExpW : GuildExperiment :=
  { hash := murmurhash32 "test", name := none, revision := 0,
    populations := [], overrides := [], overrides_formatted := [],
    holdout := none, aa_mode := false }

/-- A holdout dependency (the C5 witness input). -/
def holdoutW : HoldoutExperiment := { name := "h", bucket := 1 }

/-- A user assignment with no precomputed result (the C10 witness input). -/
def userExpC10 : UserExperiment :=
  { hash := 0, name := none, revision := 0, assignment := 0, override := -1,
    population := 0, result_ := none, aa_mode := false }

lemma ok_if_decide (P : Prop) [Decidable P] :
    (if P then (Except.ok true : Except ExpError Bool) else Except.ok false) =
      .ok (decide P) := by
  split
  · simp [*]
  · simp [*]

lemma evalFilters_append (guild : Entity) (l1 l2 : List FilterClause) :
    evalFilters guild (l1 ++ l2) =
      match evalFilters guild l1 with
      | .error err => .error err
      | .ok true => evalFilters guild l2
      | .ok false => .ok false := by
  induction l1 with
  | nil => simp [evalFilters]
  | cons f rest ih =>
    simp only [List.cons_append, evalFilters]
    cases evalFilter guild f with
    | error err => rfl
    | ok b => cases b <;> simp [ih]

lemma scanOverrides_eq_find (guild : Entity) (l : List ExperimentOverride) :
    scanOverrides guild l =
      (l.find? (fun o => o.ids.contains guild.id || optMem guild.owner_id o.ids)).map
        (fun o => o.bucket) := by
  induction l with
  | nil => rfl
  | cons o rest ih =>
    simp only [scanOverrides, List.find?]
    cases hp : (o.ids.contains guild.id || optMem guild.owner_id o.ids) <;>
      simp [hp, ih]

lemma scanPops_append (guild : Entity) (res : Nat) (l1 l2 : List ExperimentPopulation) :
    scanPops guild res (l1 ++ l2) =
      match scanPops guild res l1 with
      | .error err => .error err
      | .ok b => if b ≠ -1 then .ok b else scanPops guild res l2 := by
  induction l1 with
  | nil => simp [scanPops]
  | cons p rest ih =>
    simp only [List.cons_append, scanPops]
    cases p.bucket_for guild res with
    | error err => rfl
    | ok b =>
      by_cases hb : b = -1
      · simp [hb, ih]
      · simp [hb]

lemma scanFormatted_eq_flatten (guild : Entity) (res : Nat)
    (ls : List (List ExperimentPopulation)) :
    scanFormatted guild res ls = scanPops guild res ls.flatten := by
  induction ls with
  | nil => rfl
  | cons ps rest ih =>
    simp only [scanFormatted, List.flatten_cons, scanPops_append, ih]

/-- C2: the claim says bucket returns the assignment field when the
override field is -1, but the code returns the population field; on a
payload with assignment 3, override -1 and population 5 in normal mode,
bucket evaluates to 5, which differs from the assignment. -/
theorem userExperiment_bucket_returns_population :
    userExpC2.aa_mode = false ∧ userExpC2.override = -1 ∧
    userExpC2.assignment = 3 ∧ userExpC2.population = 5 ∧
    userExpC2.bucket = 5 ∧ userExpC2.bucket ≠ userExpC2.assignment :=
  ⟨rfl, rfl, rfl, rfl, rfl, by decide⟩

/-- C3: the claim says an entity with id below a present IdRange start
fails the filter, but the code's second branch passes any id at most the
end bound even when start is present: entity id 5 passes the IdRange
filter with start 10 and end 100, and bucket_for returns the rollout
bucket 3 rather than -1. -/
theorem idRange_below_start_still_passes :
    evalFilter entityC3 (.id_range (some 10) 100) = .ok true ∧
    ExperimentPopulation.bucket_for popC3 entityC3 0 = .ok 3 :=
  ⟨rfl, rfl⟩

/-- C4: the HashRange clause passes exactly as the claim describes it:
the unsigned 32-bit hash of key, colon and entity id is doubled without a
modulus when positive and reduced modulo 2^32 otherwise, and the clause
passes if and only if the transformed value modulo 10000 is below the
target. -/
theorem hash_range_filter_semantics :
    ∀ (guild : Entity) (key : String) (target : Nat),
      evalFilter guild (.hash_range key target) =
        .ok (hashRangeClaim key guild.id target) := by
  intro guild key target
  simp only [evalFilter, hashRangeClaim, M32]
  exact ok_if_decide _

/-- C6 counterexample: a user experiment with a precomputed result that is
present but equal to 0 and no name does not return the precomputed 0; the
code raises the name-required error instead. -/
theorem user_result_zero_precomputed_ignored :
    userExpC6.result_ = some 0 ∧ userExpC6.result 1 = .error .nameRequired :=
  ⟨rfl, rfl⟩

/-- C6 amended: the result property returns the precomputed result whenever
it is present and nonzero; otherwise, when the name is set, it returns the
unsigned 32-bit hash of the name, a colon and the user's id modulo 10000;
it fails with the name-required error exactly when the precomputed result
is absent or zero and no name is set. -/
theorem user_result_amended :
    ∀ (u : UserExperiment) (self_id : Nat),
      (∀ r, u.result_ = some r → r ≠ 0 → u.result self_id = .ok r) ∧
      (pyResultTruthy u.result_ = false → pyStrTruthy u.name = true →
        u.result self_id =
          .ok (murmurhash32 (u.name.getD "" ++ ":" ++ toString self_id) % 10000)) ∧
      (u.result self_id = .error .nameRequired ↔
        pyResultTruthy u.result_ = false ∧ pyStrTruthy u.name = false) := by
  intro u self_id
  refine ⟨?_, ?_, ?_⟩
  · intro r hr hr0
    simp [UserExperiment.result, hr, pyResultTruthy, hr0]
  · intro h1 h2
    simp [UserExperiment.result, h1, h2]
  · cases h1 : pyResultTruthy u.result_ <;> cases h2 : pyStrTruthy u.name <;>
      simp [UserExperiment.result, h1, h2]

/-- C6 amended witness: a nonzero precomputed result of 5 is returned. -/
theorem user_result_amended_witness :
    userExpC6W.result 1 = .ok 5 :=
  (user_result_amended userExpC6W 1).1 5 rfl (by decide)

/-- C7: when every filter before an unrecognized clause passes, bucket_for
fails with the unsupported-filter error; the unknown clause is neither a
silent pass nor an ordinary filter failure. -/
theorem unknown_filter_is_hard_error :
    ∀ (pop : ExperimentPopulation) (guild : Entity) (res : Nat)
      (fs1 fs2 : List FilterClause) (t : Nat),
      pop.filters = fs1 ++ FilterClause.unknown t :: fs2 →
      evalFilters guild fs1 = .ok true →
      ExperimentPopulation.bucket_for pop guild res = .error .unsupportedFilter := by
  intro pop guild res fs1 fs2 t hf h1
  unfold ExperimentPopulation.bucket_for
  rw [hf, evalFilters_append, h1]
  rfl

/-- C7 witness: a population whose single filter has the unrecognized tag
99 makes bucket_for fail with the unsupported-filter error. -/
theorem unknown_filter_is_hard_error_witness :
    ExperimentPopulation.bucket_for popC7 entityW 0 = .error .unsupportedFilter :=
  unknown_filter_is_hard_error popC7 entityW 0 [] [] 99 rfl rfl

/-- C8: setting the experiment name to a non-empty string fails with the
name-mismatch error exactly when the string's unsigned 32-bit hash differs
from the hash field; the matching string is accepted, leaves the hash
field unchanged, and re-setting it is idempotent. -/
theorem guild_set_name_hash_validation :
    ∀ (e : GuildExperiment) (s : String), s ≠ "" →
      (e.set_name (some s) = .error .nameMismatch ↔ murmurhash32 s ≠ e.hash) ∧
      (murmurhash32 s = e.hash →
        e.set_name (some s) = .ok { e with name := some s } ∧
        GuildExperiment.hash { e with name := some s } = e.hash ∧
        GuildExperiment.set_name { e with name := some s } (some s) =
          .ok { e with name := some s }) := by
  intro e s hs
  have ht : pyStrTruthy (some s) = true := by simp [pyStrTruthy, hs]
  by_cases hm : murmurhash32 s = e.hash
  · constructor
    · simp [GuildExperiment.set_name, ht, hm]
    · intro _
      refine ⟨?_, rfl, ?_⟩ <;> simp [GuildExperiment.set_name, ht, hm]
  · constructor
    · simp [GuildExperiment.set_name, ht, hm]
    · intro hc
      exact absurd hc hm

/-- C8 witness: a guild experiment whose hash field is the hash of the
string test accepts that string as its name. -/
theorem guild_set_name_hash_validation_witness :
    guildExpW.set_name (some "test") = .ok { guildExpW with name := some "test" } :=
  ((guild_set_name_hash_validation guildExpW "test" (by decide)).2 rfl).1

/-- C9: equality between guild experiments and between user experiments is
determined solely by the hash fields, whatever the other fields hold, and
the Python hash of an experiment is exactly its hash field. -/
theorem experiment_equality_is_hash_only :
    ∀ (a b : GuildExperiment) (c d : UserExperiment),
      (GuildExperiment.eqPy a b = true ↔ a.hash = b.hash) ∧
      (UserExperiment.eqPy c d = true ↔ c.hash = d.hash) ∧
      GuildExperiment.hashPy a = a.hash ∧
      UserExperiment.hashPy c = c.hash := by
  intro a b c d
  refine ⟨?_, ?_, rfl, rfl⟩ <;>
    simp [GuildExperiment.eqPy, UserExperiment.eqPy]

/-- C10: setting the name of a guild or user experiment to None or to the
empty string always succeeds without hash validation and resets the stored
name to None, after which computing a position fails with the
name-required error (for a user experiment, when no truthy precomputed
result short-circuits the computation). -/
theorem name_unset_always_succeeds :
    ∀ (e : GuildExperiment) (u : UserExperiment) (gid uid : Nat),
      e.set_name none = .ok { e with name := none } ∧
      e.set_name (some "") = .ok { e with name := none } ∧
      GuildExperiment.result_for { e with name := none } gid = .error .nameRequired ∧
      u.set_name none = .ok { u with name := none } ∧
      u.set_name (some "") = .ok { u with name := none } ∧
      (pyResultTruthy u.result_ = false →
        UserExperiment.result { u with name := none } uid = .error .nameRequired) := by
  intro e u gid uid
  refine ⟨rfl, rfl, rfl, rfl, rfl, ?_⟩
  intro h
  simp [UserExperiment.result, h, pyStrTruthy]

/-- C10 witness: a user experiment with no precomputed result fails with
the name-required error after its name is unset. -/
theorem name_unset_always_succeeds_witness :
    UserExperiment.result { userExpC10 with name := none } 1 = .error .nameRequired :=
  (name_unset_always_succeeds guildExpW userExpC10 1 1).2.2.2.2.2 rfl

/-- C5: holdout eligibility returns true when the dependency is missing
from the registry (leaving it unchanged); when the dependency is found
with a truthy name, it returns the comparison of the dependency's
bucket_for result with the required bucket without touching the registry;
when the name is falsy, its only side effect is backfilling that name in
the registry entry before the same comparison. -/
theorem holdout_is_eligible_semantics :
    ∀ (h : HoldoutExperiment) (guild : Entity) (fuel : Nat) (reg : Registry),
      (Registry.get reg (murmurhash32 h.name) = none →
        h.is_eligible guild fuel reg = .ok (true, reg)) ∧
      (∀ dep, Registry.get reg (murmurhash32 h.name) = some dep →
        pyStrTruthy dep.name = true →
        h.is_eligible guild fuel reg =
          (match dep.bucket_for guild fuel reg with
           | .error err => .error err
           | .ok (b, reg2) => .ok (decide (b = h.bucket), reg2))) ∧
      (∀ dep, Registry.get reg (murmurhash32 h.name) = some dep →
        pyStrTruthy dep.name = false →
        h.is_eligible guild fuel reg =
          (match GuildExperiment.bucket_for { dep with name := some h.name } guild fuel
                   (Registry.set reg (murmurhash32 h.name) { dep with name := some h.name }) with
           | .error err => .error err
           | .ok (b, reg2) => .ok (decide (b = h.bucket), reg2))) := by
  intro h guild fuel reg
  refine ⟨?_, ?_, ?_⟩
  · intro hn
    unfold HoldoutExperiment.is_eligible
    rw [hn]
  · intro dep hd ht
    unfold HoldoutExperiment.is_eligible
    rw [hd]
    simp [ht]
  · intro dep hd ht
    unfold HoldoutExperiment.is_eligible
    rw [hd]
    simp [ht]

/-- C5 witness: with an empty registry the dependency is missing and the
holdout is vacuously eligible. -/
theorem holdout_is_eligible_semantics_witness :
    HoldoutExperiment.is_eligible holdoutW entityW 3 [] = .ok (true, []) :=
  (holdout_is_eligible_semantics holdoutW entityW 3 []).1 rfl

lemma bucketForRest_claim_eq (e : GuildExperiment) (guild : Entity) (reg : Registry) :
    GuildExperiment.bucketForRest e guild reg =
      (match e.result_for guild.id with
       | .error err => .error err
       | .ok position =>
         match e.overrides.find? (fun o => o.ids.contains guild.id || optMem guild.owner_id o.ids) with
         | some o => .ok (o.bucket, reg)
         | none =>
           match scanPops guild position (e.overrides_formatted.flatten ++ e.populations) with
           | .error err => .error err
           | .ok b => .ok (b, reg)) := by
  unfold GuildExperiment.bucketForRest
  cases e.result_for guild.id with
  | error err => rfl
  | ok pos =>
    dsimp only
    rw [scanOverrides_eq_find]
    cases e.overrides.find? (fun o => o.ids.contains guild.id || optMem guild.owner_id o.ids) with
    | some o => rfl
    | none =>
      dsimp only [Option.map]
      rw [scanFormatted_eq_flatten, scanPops_append]
      cases scanPops guild pos e.overrides_formatted.flatten with
      | error err => rfl
      | ok b =>
        dsimp only
        by_cases hb : b = -1
        · rw [if_neg (by simp [hb]), if_neg (by simp [hb])]
        · rw [if_pos hb, if_pos hb]

/-- C1: GuildExperiment.bucket_for follows the claimed precedence order:
-1 in A/A mode; -1 when a present holdout is not eligible; then the
position is computed; then the first override containing the guild's id
or owner id determines the bucket before any population is evaluated;
only then are overrides_formatted and populations scanned for the first
non-sentinel bucket, with -1 when none matches. -/
theorem guild_bucket_for_precedence :
    ∀ (e : GuildExperiment) (guild : Entity) (fuel : Nat) (reg : Registry),
      GuildExperiment.bucket_for e guild (fuel + 1) reg =
        GuildExperiment.bucketForClaim e guild fuel reg := by
  intro e guild fuel reg
  rw [GuildExperiment.bucket_for, GuildExperiment.bucketForClaim]
  by_cases haa : e.aa_mode
  · simp only [haa, if_true]
  · simp only [haa, Bool.false_eq_true, if_false]
    cases hh : e.holdout with
    | none =>
      dsimp only
      rw [bucketForRest_claim_eq]
    | some h =>
      dsimp only
      cases he : h.is_eligible guild fuel reg with
      | error err => rfl
      | ok p =>
        obtain ⟨elig, reg'⟩ := p
        cases elig
        · rfl
        · dsimp only
          rw [if_pos rfl, bucketForRest_claim_eq]
